import Mathlib

/-!
Shallow embedding of the parity calculators of `app_paridade_produtos.py`.

Parameter sets (the Python `inputs` / `globais` dicts) are association lists
from string keys to rationals; `pget` models `dict.get(key, default)`.
Each calculator returns a `CalcResult`: a `values` mapping (string key to a
JSON-like value, since the flagship VHP calculator stores a nested
`desenvolvimento` breakdown) together with an ordered `errors` list.
Python floats are modelled by exact rationals.
-/

/-- JSON-like value stored in a calculator's `values` mapping: a number,
a string, or a nested dictionary (used for the VHP breakdown). -/
inductive Val where
  | num (q : ℚ)
  | str (s : String)
  | dict (entries : List (String × Val))

/-- A parameter set: ordered mapping from parameter name to scalar. -/
abbrev Params := List (String × ℚ)

/-- Python `d.get(key, default)` on a parameter set. -/
def pget (ps : Params) (k : String) (d : ℚ) : ℚ := (ps.lookup k).getD d

/-- Result record of one calculator: computed values plus error messages. -/
structure CalcResult where
  values : List (String × Val)
  errors : List String

/-- Look up a numeric entry of a result's `values` mapping. -/
def numLookup (r : CalcResult) (k : String) : Option ℚ :=
  match r.values.lookup k with
  | some (Val.num q) => some q
  | _ => none

/-- Conversion factor cents/lb to USD/ton (source constant 22.0462). -/
def FATOR_CONVERSAO_CENTS_LB_PARA_TON : ℚ := 22.0462

/-- Bags (sacas) per ton. -/
def SACAS_POR_TON : ℚ := 20

/-- Litres per sugar bag, anhydrous ethanol export. -/
def FATOR_ETANOL_ANIDRO_LITROS_POR_SACA : ℚ := 32.669

/-- Litres per sugar bag, hydrated ethanol export. -/
def FATOR_ETANOL_HIDRATADO_LITROS_POR_SACA : ℚ := 31.304

/-- Litres per sugar bag, anhydrous ethanol domestic market. -/
def FATOR_ETANOL_ANIDRO_MI_LITROS_POR_SACA : ℚ := 33.712

/-- Litres per sugar bag, hydrated ethanol domestic market. -/
def FATOR_ETANOL_HIDRATADO_MI_LITROS_POR_SACA : ℚ := 31.504

/-- Hydrated/anhydrous conversion percentage (0.0769). -/
def FATOR_CONVERSAO_HIDRATADO : ℚ := 0.0769

/-- CBIO factor, anhydrous (712.4). -/
def FATOR_CBIO_FC_ANIDRO : ℚ := 712.4

/-- CBIO factor, hydrated (749.75). -/
def FATOR_CBIO_FC_HIDRATADO : ℚ := 749.75

/-- Tax credit constant (240). -/
def CREDITO_TRIBUTARIO : ℚ := 240

/-- Ethanol adjustment factor (1.042). -/
def FATOR_AJUSTE_ETANOL : ℚ := 1.042

/-- VHP sugar calculator with the detailed step-by-step breakdown,
embedding `calc_acucar_vhp_detalhado`. -/
def calc_acucar_vhp_detalhado (inputs globais : Params) : CalcResult :=
  let acucar_ny_cents_lb := pget inputs "acucar_ny_cents_lb" 0
  let premio_desconto := pget inputs "premio_desconto" 0
  let premio_pol := pget inputs "premio_pol" 0
  let custo_terminal_usd_ton := pget inputs "custo_terminal_usd_ton" 0
  let frete_brl_ton := pget inputs "frete_brl_ton" 0
  let cambio_brl_usd := pget globais "cambio_brl_usd" 1
  if cambio_brl_usd ≤ 0 then
    { values := [], errors := ["Câmbio deve ser maior que zero"] }
  else
    let premio_pol_percentual := if 1 < premio_pol then premio_pol / 100 else premio_pol
    let sugar_ny_mais_pol_cents_lb :=
      (acucar_ny_cents_lb + premio_desconto) * (1 + premio_pol_percentual)
    let passo1 : Val := Val.dict
      [("descricao", Val.str "Cálculo Sugar NY + Pol"),
       ("formula", Val.str "(Açúcar NY + Prêmio/Desconto) × (1 + Prêmio Pol%)"),
       ("valores", Val.dict
         [("acucar_ny_cents_lb", Val.num acucar_ny_cents_lb),
          ("premio_desconto_cents_lb", Val.num premio_desconto),
          ("premio_pol_percentual", Val.num premio_pol_percentual),
          ("soma_ny_premio", Val.num (acucar_ny_cents_lb + premio_desconto)),
          ("fator_pol", Val.num (1 + premio_pol_percentual)),
          ("resultado_cents_lb", Val.num sugar_ny_mais_pol_cents_lb)])]
    let sugar_ny_mais_pol_usd_ton :=
      sugar_ny_mais_pol_cents_lb * FATOR_CONVERSAO_CENTS_LB_PARA_TON
    let frete_usd_ton := frete_brl_ton / cambio_brl_usd
    let valor_usd_ton := sugar_ny_mais_pol_usd_ton - custo_terminal_usd_ton - frete_usd_ton
    let valor_usd_saca := valor_usd_ton / SACAS_POR_TON
    let equivalente_vhp_reais_saca_pvu := valor_usd_saca * cambio_brl_usd
    let passo2 : Val := Val.dict
      [("descricao", Val.str "Cálculo Equivalente VHP Reais/saca PVU"),
       ("formula", Val.str
         "(((Sugar NY+pol × 22.0462) - Custo Terminal - (Frete BRL/ton ÷ Câmbio)) ÷ 20) × Câmbio"),
       ("valores", Val.dict
         [("sugar_ny_mais_pol_cents_lb", Val.num sugar_ny_mais_pol_cents_lb),
          ("fator_conversao", Val.num FATOR_CONVERSAO_CENTS_LB_PARA_TON),
          ("sugar_ny_mais_pol_usd_ton", Val.num sugar_ny_mais_pol_usd_ton),
          ("custo_terminal_usd_ton", Val.num custo_terminal_usd_ton),
          ("frete_brl_ton", Val.num frete_brl_ton),
          ("cambio_brl_usd", Val.num cambio_brl_usd),
          ("frete_usd_ton", Val.num frete_usd_ton),
          ("valor_usd_ton", Val.num valor_usd_ton),
          ("sacas_por_ton", Val.num SACAS_POR_TON),
          ("valor_usd_saca", Val.num valor_usd_saca),
          ("resultado_brl_saca", Val.num equivalente_vhp_reais_saca_pvu)])]
    let equivalente_vhp_cents_lb_pvu :=
      ((equivalente_vhp_reais_saca_pvu * SACAS_POR_TON) /
        FATOR_CONVERSAO_CENTS_LB_PARA_TON) / cambio_brl_usd
    let passo3 : Val := Val.dict
      [("descricao", Val.str "Cálculo Equivalente VHP c/lb PVU"),
       ("formula", Val.str "((Equivalente VHP Reais/saca PVU × 20) ÷ 22.0462) ÷ Câmbio"),
       ("valores", Val.dict
         [("equivalente_vhp_reais_saca_pvu", Val.num equivalente_vhp_reais_saca_pvu),
          ("sacas_por_ton", Val.num SACAS_POR_TON),
          ("fator_conversao", Val.num FATOR_CONVERSAO_CENTS_LB_PARA_TON),
          ("cambio_brl_usd", Val.num cambio_brl_usd),
          ("resultado_cents_lb_pvu", Val.num equivalente_vhp_cents_lb_pvu)])]
    let equivalente_vhp_cents_lb_fob := sugar_ny_mais_pol_cents_lb
    let passo4 : Val := Val.dict
      [("descricao", Val.str "Equivalente VHP c/lb FOB"),
       ("formula", Val.str "Igual ao Sugar NY + Pol"),
       ("valores", Val.dict
         [("sugar_ny_mais_pol_cents_lb", Val.num sugar_ny_mais_pol_cents_lb),
          ("resultado_cents_lb_fob", Val.num equivalente_vhp_cents_lb_fob)])]
    { values :=
        [("sugar_ny_mais_pol_cents_lb", Val.num sugar_ny_mais_pol_cents_lb),
         ("equivalente_vhp_reais_saca_pvu", Val.num equivalente_vhp_reais_saca_pvu),
         ("equivalente_vhp_cents_lb_pvu", Val.num equivalente_vhp_cents_lb_pvu),
         ("equivalente_vhp_cents_lb_fob", Val.num equivalente_vhp_cents_lb_fob),
         ("desenvolvimento", Val.dict
           [("passo1", passo1), ("passo2", passo2), ("passo3", passo3), ("passo4", passo4)])],
      errors := [] }

/-- Crystal sugar (ESALQ reference) calculator, embedding
`calc_acucar_cristal_esalq`. -/
def calc_acucar_cristal_esalq (inputs globais : Params) : CalcResult :=
  let preco_esalq_brl_saca := pget inputs "preco_esalq_brl_saca" 0
  let imposto := pget inputs "imposto" 0
  let frete_santos_usina_brl_ton := pget inputs "frete_santos_usina_brl_ton" 0
  let custo_fobizacao_container_brl_ton := pget inputs "custo_fobizacao_container_brl_ton" 0
  let custo_vhp_para_cristal := pget inputs "custo_vhp_para_cristal" 0
  let cambio_brl_usd := pget globais "cambio_brl_usd" 1
  let custo_terminal_usd_ton := pget globais "custo_terminal_usd_ton" 0
  if cambio_brl_usd ≤ 0 then
    { values := [], errors := ["Câmbio deve ser maior que zero"] }
  else
    let imposto_percentual := if 1 < imposto then imposto / 100 else imposto
    let equivalente_cristal_reais_saca_pvu := preco_esalq_brl_saca * (1 - imposto_percentual)
    let equivalente_vhp_reais_saca_pvu :=
      equivalente_cristal_reais_saca_pvu - custo_vhp_para_cristal
    let equivalente_vhp_cents_lb_pvu :=
      ((equivalente_vhp_reais_saca_pvu * SACAS_POR_TON) /
        FATOR_CONVERSAO_CENTS_LB_PARA_TON) / cambio_brl_usd
    let custo_terminal_brl_ton := custo_terminal_usd_ton * cambio_brl_usd
    let equivalente_vhp_cents_lb_fob :=
      (((equivalente_vhp_reais_saca_pvu * SACAS_POR_TON) + frete_santos_usina_brl_ton +
          custo_terminal_brl_ton) / FATOR_CONVERSAO_CENTS_LB_PARA_TON) / cambio_brl_usd
    let equivalente_cristal_cents_lb_pvu :=
      (((equivalente_cristal_reais_saca_pvu * SACAS_POR_TON) /
          FATOR_CONVERSAO_CENTS_LB_PARA_TON) / cambio_brl_usd) -
        (15 / FATOR_CONVERSAO_CENTS_LB_PARA_TON / cambio_brl_usd)
    let equivalente_cristal_cents_lb_fob :=
      (((equivalente_cristal_reais_saca_pvu * SACAS_POR_TON) + frete_santos_usina_brl_ton +
          custo_fobizacao_container_brl_ton) / 22.04622) / cambio_brl_usd
    { values :=
        [("equivalente_cristal_reais_saca_pvu", Val.num equivalente_cristal_reais_saca_pvu),
         ("equivalente_vhp_reais_saca_pvu", Val.num equivalente_vhp_reais_saca_pvu),
         ("equivalente_vhp_cents_lb_pvu", Val.num equivalente_vhp_cents_lb_pvu),
         ("equivalente_vhp_cents_lb_fob", Val.num equivalente_vhp_cents_lb_fob),
         ("equivalente_cristal_cents_lb_pvu", Val.num equivalente_cristal_cents_lb_pvu),
         ("equivalente_cristal_cents_lb_fob", Val.num equivalente_cristal_cents_lb_fob)],
      errors := [] }

/-- Domestic-market / NY commercialization parity calculator, embedding
`calc_paridade_comercializacao_mi_ny`. -/
def calc_paridade_comercializacao_mi_ny (inputs globais : Params) : CalcResult :=
  let acucar_ny_cents_lb := pget inputs "acucar_ny_cents_lb" 0
  let premio_fisico_mi := pget inputs "premio_fisico_mi" 0
  let cambio_brl_usd := pget globais "cambio_brl_usd" 1
  let custo_terminal_usd_ton := pget globais "custo_terminal_usd_ton" 0
  let frete_santos_usina_brl_ton := pget globais "frete_santos_usina_brl_ton" 0
  let custo_fobizacao_container_brl_ton := pget globais "custo_fobizacao_container_brl_ton" 0
  let custo_vhp_para_cristal := pget globais "custo_vhp_para_cristal" 0
  if cambio_brl_usd ≤ 0 then
    { values := [], errors := ["Câmbio deve ser maior que zero"] }
  else
    let acucar_ny_usd_ton := acucar_ny_cents_lb * 22.04622
    let acucar_com_premio_usd_ton := acucar_ny_usd_ton + premio_fisico_mi
    let acucar_com_premio_brl_ton := acucar_com_premio_usd_ton * cambio_brl_usd
    let equivalente_cristal_reais_saca_pvu := acucar_com_premio_brl_ton / SACAS_POR_TON
    let equivalente_vhp_reais_saca_pvu :=
      equivalente_cristal_reais_saca_pvu - custo_vhp_para_cristal
    let equivalente_vhp_cents_lb_pvu :=
      ((equivalente_vhp_reais_saca_pvu * SACAS_POR_TON) /
        FATOR_CONVERSAO_CENTS_LB_PARA_TON) / cambio_brl_usd
    let custo_terminal_brl_ton := custo_terminal_usd_ton * cambio_brl_usd
    let equivalente_vhp_cents_lb_fob :=
      (((equivalente_vhp_reais_saca_pvu * SACAS_POR_TON) + frete_santos_usina_brl_ton +
          custo_terminal_brl_ton) / FATOR_CONVERSAO_CENTS_LB_PARA_TON) / cambio_brl_usd
    let equivalente_cristal_cents_lb_pvu :=
      ((equivalente_cristal_reais_saca_pvu * SACAS_POR_TON) /
        FATOR_CONVERSAO_CENTS_LB_PARA_TON) / cambio_brl_usd
    let equivalente_cristal_cents_lb_fob :=
      ((equivalente_cristal_reais_saca_pvu * SACAS_POR_TON +
          custo_fobizacao_container_brl_ton + frete_santos_usina_brl_ton) /
        FATOR_CONVERSAO_CENTS_LB_PARA_TON) / cambio_brl_usd
    { values :=
        [("equivalente_cristal_reais_saca_pvu", Val.num equivalente_cristal_reais_saca_pvu),
         ("equivalente_vhp_reais_saca_pvu", Val.num equivalente_vhp_reais_saca_pvu),
         ("equivalente_vhp_cents_lb_pvu", Val.num equivalente_vhp_cents_lb_pvu),
         ("equivalente_vhp_cents_lb_fob", Val.num equivalente_vhp_cents_lb_fob),
         ("equivalente_cristal_cents_lb_pvu", Val.num equivalente_cristal_cents_lb_pvu),
         ("equivalente_cristal_cents_lb_fob", Val.num equivalente_cristal_cents_lb_fob)],
      errors := [] }

/-- Export Crystal sugar calculator, embedding `calc_acucar_cristal_exportacao`. -/
def calc_acucar_cristal_exportacao (inputs globais : Params) : CalcResult :=
  let acucar_ny_cents_lb := pget inputs "acucar_ny_cents_lb" 0
  let premio_fisico_exportacao := pget inputs "premio_fisico_exportacao" 0
  let cambio_brl_usd := pget globais "cambio_brl_usd" 1
  let custo_terminal_usd_ton := pget globais "custo_terminal_usd_ton" 0
  let frete_brl_ton := pget globais "frete_brl_ton" 0
  let custo_fobizacao_container_brl_ton := pget globais "custo_fobizacao_container_brl_ton" 0
  let custo_vhp_para_cristal := pget globais "custo_vhp_para_cristal" 0
  if cambio_brl_usd ≤ 0 then
    { values := [], errors := ["Câmbio deve ser maior que zero"] }
  else
    let acucar_ny_usd_ton := acucar_ny_cents_lb * 22.04622
    let acucar_com_premio_usd_ton := acucar_ny_usd_ton + premio_fisico_exportacao
    let acucar_com_premio_brl_ton := acucar_com_premio_usd_ton * cambio_brl_usd
    let equivalente_cristal_reais_saca_pvu :=
      (acucar_com_premio_brl_ton - custo_fobizacao_container_brl_ton - frete_brl_ton) /
        SACAS_POR_TON
    let equivalente_vhp_reais_saca_pvu :=
      equivalente_cristal_reais_saca_pvu - custo_vhp_para_cristal
    let equivalente_vhp_cents_lb_pvu :=
      ((equivalente_vhp_reais_saca_pvu * SACAS_POR_TON) /
        FATOR_CONVERSAO_CENTS_LB_PARA_TON) / cambio_brl_usd
    let custo_terminal_brl_ton := custo_terminal_usd_ton * cambio_brl_usd
    let equivalente_vhp_cents_lb_fob :=
      (((equivalente_vhp_reais_saca_pvu * SACAS_POR_TON) + frete_brl_ton +
          custo_terminal_brl_ton) / FATOR_CONVERSAO_CENTS_LB_PARA_TON) / cambio_brl_usd
    let equivalente_cristal_cents_lb_pvu :=
      ((equivalente_cristal_reais_saca_pvu * SACAS_POR_TON) /
        FATOR_CONVERSAO_CENTS_LB_PARA_TON) / cambio_brl_usd
    let equivalente_cristal_cents_lb_fob :=
      ((acucar_ny_cents_lb * 22.04622) + premio_fisico_exportacao) / 22.0462
    { values :=
        [("equivalente_cristal_reais_saca_pvu", Val.num equivalente_cristal_reais_saca_pvu),
         ("equivalente_vhp_reais_saca_pvu", Val.num equivalente_vhp_reais_saca_pvu),
         ("equivalente_vhp_cents_lb_pvu", Val.num equivalente_vhp_cents_lb_pvu),
         ("equivalente_vhp_cents_lb_fob", Val.num equivalente_vhp_cents_lb_fob),
         ("equivalente_cristal_cents_lb_pvu", Val.num equivalente_cristal_cents_lb_pvu),
         ("equivalente_cristal_cents_lb_fob", Val.num equivalente_cristal_cents_lb_fob)],
      errors := [] }

/-- Anhydrous ethanol export calculator, embedding `calc_etanol_anidro_exportacao`. -/
def calc_etanol_anidro_exportacao (inputs globais : Params) : CalcResult :=
  let preco_anidro_fob_usd := pget inputs "preco_anidro_fob_usd" 0
  let frete_etanol_porto_usina := pget inputs "frete_etanol_porto_usina" 0
  let custo_terminal_etanol := pget inputs "custo_terminal_etanol" 0
  let custo_supervisao_documentos := pget inputs "custo_supervisao_documentos" 0
  let custos_adicionais_demurrage := pget inputs "custos_adicionais_demurrage" 0
  let cambio_brl_usd := pget globais "cambio_brl_usd" 1
  let frete_brl_ton := pget globais "frete_brl_ton" 0
  let custo_terminal_usd_ton := pget globais "custo_terminal_usd_ton" 0
  if cambio_brl_usd ≤ 0 then
    { values := [], errors := ["Câmbio deve ser maior que zero"] }
  else
    let preco_anidro_brl := preco_anidro_fob_usd * cambio_brl_usd
    let preco_liquido_pvu := preco_anidro_brl - frete_etanol_porto_usina -
      custo_terminal_etanol - custo_supervisao_documentos - custos_adicionais_demurrage
    let equivalente_vhp_reais_saca_pvu :=
      preco_liquido_pvu / FATOR_ETANOL_ANIDRO_LITROS_POR_SACA
    let equivalente_vhp_cents_lb_pvu :=
      (((equivalente_vhp_reais_saca_pvu * SACAS_POR_TON) /
          FATOR_CONVERSAO_CENTS_LB_PARA_TON) / cambio_brl_usd) / FATOR_AJUSTE_ETANOL
    let custo_terminal_brl_ton := custo_terminal_usd_ton * cambio_brl_usd
    let equivalente_vhp_cents_lb_fob :=
      ((((equivalente_vhp_reais_saca_pvu * SACAS_POR_TON) + frete_brl_ton +
          custo_terminal_brl_ton) / FATOR_CONVERSAO_CENTS_LB_PARA_TON) / cambio_brl_usd) /
        FATOR_AJUSTE_ETANOL
    { values :=
        [("preco_liquido_pvu", Val.num preco_liquido_pvu),
         ("equivalente_vhp_reais_saca_pvu", Val.num equivalente_vhp_reais_saca_pvu),
         ("equivalente_vhp_cents_lb_pvu", Val.num equivalente_vhp_cents_lb_pvu),
         ("equivalente_vhp_cents_lb_fob", Val.num equivalente_vhp_cents_lb_fob)],
      errors := [] }

/-- Hydrated ethanol export calculator, embedding `calc_etanol_hidratado_exportacao`. -/
def calc_etanol_hidratado_exportacao (inputs globais : Params) : CalcResult :=
  let preco_hidratado_fob_usd := pget inputs "preco_hidratado_fob_usd" 0
  let frete_etanol_porto_usina := pget inputs "frete_etanol_porto_usina" 0
  let custo_terminal_etanol := pget inputs "custo_terminal_etanol" 0
  let custo_supervisao_documentos := pget inputs "custo_supervisao_documentos" 0
  let custos_adicionais_demurrage := pget inputs "custos_adicionais_demurrage" 0
  let cambio_brl_usd := pget globais "cambio_brl_usd" 1
  let frete_brl_ton := pget globais "frete_brl_ton" 0
  let custo_terminal_usd_ton := pget globais "custo_terminal_usd_ton" 0
  if cambio_brl_usd ≤ 0 then
    { values := [], errors := ["Câmbio deve ser maior que zero"] }
  else
    let preco_hidratado_brl := preco_hidratado_fob_usd * cambio_brl_usd
    let preco_liquido_pvu := preco_hidratado_brl - frete_etanol_porto_usina -
      custo_terminal_etanol - custo_supervisao_documentos - custos_adicionais_demurrage
    let equivalente_vhp_reais_saca_pvu :=
      preco_liquido_pvu / FATOR_ETANOL_HIDRATADO_LITROS_POR_SACA
    let equivalente_vhp_cents_lb_pvu :=
      (((equivalente_vhp_reais_saca_pvu * SACAS_POR_TON) /
          FATOR_CONVERSAO_CENTS_LB_PARA_TON) / cambio_brl_usd) / FATOR_AJUSTE_ETANOL
    let custo_terminal_brl_ton := custo_terminal_usd_ton * cambio_brl_usd
    let equivalente_vhp_cents_lb_fob :=
      ((((equivalente_vhp_reais_saca_pvu * SACAS_POR_TON) + frete_brl_ton +
          custo_terminal_brl_ton) / FATOR_CONVERSAO_CENTS_LB_PARA_TON) / cambio_brl_usd) /
        FATOR_AJUSTE_ETANOL
    { values :=
        [("preco_liquido_pvu", Val.num preco_liquido_pvu),
         ("equivalente_vhp_reais_saca_pvu", Val.num equivalente_vhp_reais_saca_pvu),
         ("equivalente_vhp_cents_lb_pvu", Val.num equivalente_vhp_cents_lb_pvu),
         ("equivalente_vhp_cents_lb_fob", Val.num equivalente_vhp_cents_lb_fob)],
      errors := [] }

/-- Anhydrous ethanol domestic-market calculator, embedding
`calc_etanol_anidro_mercado_interno`. -/
def calc_etanol_anidro_mercado_interno (inputs globais : Params) : CalcResult :=
  let preco_anidro_com_impostos_brl := pget inputs "preco_anidro_com_impostos_brl" 0
  let pis_cofins_brl := pget inputs "pis_cofins_brl" 0
  let contribuicao_agroindustria := pget inputs "contribuicao_agroindustria" 0
  let valor_cbio_bruto := pget inputs "valor_cbio_bruto" 0
  let cambio_brl_usd := pget globais "cambio_brl_usd" 1
  let frete_brl_ton := pget globais "frete_brl_ton" 0
  let custo_terminal_usd_ton := pget globais "custo_terminal_usd_ton" 0
  let premio_fisico_mi := pget globais "premio_fisico_mi" 0
  let custo_fobizacao_container_brl_ton := pget globais "custo_fobizacao_container_brl_ton" 0
  if cambio_brl_usd ≤ 0 then
    { values := [], errors := ["Câmbio deve ser maior que zero"] }
  else
    let contribuicao_percentual :=
      if 1 < contribuicao_agroindustria then contribuicao_agroindustria / 100
      else contribuicao_agroindustria
    let preco_liquido_pvu :=
      (preco_anidro_com_impostos_brl * (1 - contribuicao_percentual)) - pis_cofins_brl
    let cbio_liquido_impostos := (valor_cbio_bruto * 0.7575) * 0.6
    let preco_liquido_pvu_mais_cbio :=
      preco_liquido_pvu + ((cbio_liquido_impostos / FATOR_CBIO_FC_ANIDRO) * 1000)
    let equivalente_hidratado := preco_liquido_pvu / (1 + FATOR_CONVERSAO_HIDRATADO)
    let equivalente_vhp_reais_saca_pvu :=
      preco_liquido_pvu_mais_cbio / FATOR_ETANOL_ANIDRO_MI_LITROS_POR_SACA
    let equivalente_vhp_cents_lb_pvu :=
      ((equivalente_vhp_reais_saca_pvu * SACAS_POR_TON) /
        FATOR_CONVERSAO_CENTS_LB_PARA_TON) / cambio_brl_usd
    let custo_terminal_brl_ton := custo_terminal_usd_ton * cambio_brl_usd
    let equivalente_vhp_cents_lb_fob :=
      ((((preco_liquido_pvu_mais_cbio / FATOR_ETANOL_ANIDRO_MI_LITROS_POR_SACA *
            SACAS_POR_TON) + frete_brl_ton + custo_terminal_brl_ton) /
          FATOR_CONVERSAO_CENTS_LB_PARA_TON) / cambio_brl_usd) / FATOR_AJUSTE_ETANOL
    let premio_fisico_brl_ton := premio_fisico_mi * cambio_brl_usd
    let equivalente_cristal_cents_lb_pvu :=
      (((preco_liquido_pvu_mais_cbio / FATOR_ETANOL_ANIDRO_MI_LITROS_POR_SACA *
            SACAS_POR_TON) + premio_fisico_brl_ton) /
          FATOR_CONVERSAO_CENTS_LB_PARA_TON) / cambio_brl_usd
    let equivalente_cristal_reais_saca_pvu :=
      (equivalente_cristal_cents_lb_pvu * FATOR_CONVERSAO_CENTS_LB_PARA_TON /
        SACAS_POR_TON) * cambio_brl_usd
    let equivalente_cristal_cents_lb_fob :=
      (((preco_liquido_pvu_mais_cbio / FATOR_ETANOL_ANIDRO_MI_LITROS_POR_SACA *
            SACAS_POR_TON) + frete_brl_ton + custo_fobizacao_container_brl_ton) +
          premio_fisico_brl_ton) / FATOR_CONVERSAO_CENTS_LB_PARA_TON / cambio_brl_usd
    { values :=
        [("preco_liquido_pvu", Val.num preco_liquido_pvu),
         ("cbio_liquido_impostos", Val.num cbio_liquido_impostos),
         ("preco_liquido_pvu_mais_cbio", Val.num preco_liquido_pvu_mais_cbio),
         ("equivalente_hidratado", Val.num equivalente_hidratado),
         ("equivalente_vhp_reais_saca_pvu", Val.num equivalente_vhp_reais_saca_pvu),
         ("equivalente_vhp_cents_lb_pvu", Val.num equivalente_vhp_cents_lb_pvu),
         ("equivalente_vhp_cents_lb_fob", Val.num equivalente_vhp_cents_lb_fob),
         ("equivalente_cristal_cents_lb_pvu", Val.num equivalente_cristal_cents_lb_pvu),
         ("equivalente_cristal_reais_saca_pvu", Val.num equivalente_cristal_reais_saca_pvu),
         ("equivalente_cristal_cents_lb_fob", Val.num equivalente_cristal_cents_lb_fob)],
      errors := [] }

/-- Hydrated ethanol domestic-market calculator, embedding
`calc_etanol_hidratado_mercado_interno`. -/
def calc_etanol_hidratado_mercado_interno (inputs globais : Params) : CalcResult :=
  let preco_hidratado_com_impostos_brl := pget inputs "preco_hidratado_com_impostos_brl" 0
  let pis_cofins_brl := pget inputs "pis_cofins_brl" 0
  let icms_percentual := pget inputs "icms_percentual" 0
  let contribuicao_agroindustria := pget inputs "contribuicao_agroindustria" 0
  let valor_cbio_bruto := pget inputs "valor_cbio_bruto" 0
  let cambio_brl_usd := pget globais "cambio_brl_usd" 1
  let frete_brl_ton := pget globais "frete_brl_ton" 0
  let custo_terminal_usd_ton := pget globais "custo_terminal_usd_ton" 0
  let premio_fisico_mi := pget globais "premio_fisico_mi" 0
  let custo_fobizacao_container_brl_ton := pget globais "custo_fobizacao_container_brl_ton" 0
  if cambio_brl_usd ≤ 0 then
    { values := [], errors := ["Câmbio deve ser maior que zero"] }
  else
    let icms_percentual_val :=
      if 1 < icms_percentual then icms_percentual / 100 else icms_percentual
    let contribuicao_percentual :=
      if 1 < contribuicao_agroindustria then contribuicao_agroindustria / 100
      else contribuicao_agroindustria
    let cbio_liquido_impostos := (valor_cbio_bruto * 0.7575) * 0.6
    let preco_liquido_pvu :=
      ((preco_hidratado_com_impostos_brl * (1 - contribuicao_percentual)) *
        (1 - icms_percentual_val)) - pis_cofins_brl
    let preco_liquido_pvu_mais_cbio :=
      preco_liquido_pvu + ((cbio_liquido_impostos / FATOR_CBIO_FC_HIDRATADO) * 1000)
    let equivalente_anidro := preco_liquido_pvu * (1 + FATOR_CONVERSAO_HIDRATADO)
    let preco_liquido_pvu_mais_cbio_mais_credito :=
      preco_liquido_pvu_mais_cbio + CREDITO_TRIBUTARIO
    let equivalente_vhp_reais_saca_pvu :=
      preco_liquido_pvu_mais_cbio / FATOR_ETANOL_HIDRATADO_MI_LITROS_POR_SACA
    let equivalente_vhp_cents_lb_pvu :=
      ((equivalente_vhp_reais_saca_pvu * SACAS_POR_TON) /
        FATOR_CONVERSAO_CENTS_LB_PARA_TON) / cambio_brl_usd
    let custo_terminal_brl_ton := custo_terminal_usd_ton * cambio_brl_usd
    let equivalente_vhp_cents_lb_fob :=
      ((((preco_liquido_pvu_mais_cbio / FATOR_ETANOL_HIDRATADO_MI_LITROS_POR_SACA *
            SACAS_POR_TON) + frete_brl_ton + custo_terminal_brl_ton) /
          FATOR_CONVERSAO_CENTS_LB_PARA_TON) / cambio_brl_usd) / FATOR_AJUSTE_ETANOL
    let premio_fisico_brl_ton := premio_fisico_mi * cambio_brl_usd
    let equivalente_cristal_cents_lb_pvu :=
      (((preco_liquido_pvu_mais_cbio / FATOR_ETANOL_HIDRATADO_MI_LITROS_POR_SACA *
            SACAS_POR_TON) + premio_fisico_brl_ton) /
          FATOR_CONVERSAO_CENTS_LB_PARA_TON) / cambio_brl_usd
    let equivalente_cristal_reais_saca_pvu :=
      (equivalente_cristal_cents_lb_pvu * FATOR_CONVERSAO_CENTS_LB_PARA_TON /
        SACAS_POR_TON) * cambio_brl_usd
    let equivalente_cristal_cents_lb_fob :=
      (((preco_liquido_pvu_mais_cbio / FATOR_ETANOL_HIDRATADO_MI_LITROS_POR_SACA *
            SACAS_POR_TON) + frete_brl_ton + custo_fobizacao_container_brl_ton) +
          premio_fisico_brl_ton) / FATOR_CONVERSAO_CENTS_LB_PARA_TON / cambio_brl_usd
    { values :=
        [("preco_liquido_pvu", Val.num preco_liquido_pvu),
         ("preco_liquido_pvu_mais_cbio", Val.num preco_liquido_pvu_mais_cbio),
         ("equivalente_anidro", Val.num equivalente_anidro),
         ("preco_liquido_pvu_mais_cbio_mais_credito",
           Val.num preco_liquido_pvu_mais_cbio_mais_credito),
         ("equivalente_vhp_reais_saca_pvu", Val.num equivalente_vhp_reais_saca_pvu),
         ("equivalente_vhp_cents_lb_pvu", Val.num equivalente_vhp_cents_lb_pvu),
         ("equivalente_vhp_cents_lb_fob", Val.num equivalente_vhp_cents_lb_fob),
         ("equivalente_cristal_cents_lb_pvu", Val.num equivalente_cristal_cents_lb_pvu),
         ("equivalente_cristal_reais_saca_pvu", Val.num equivalente_cristal_reais_saca_pvu),
         ("equivalente_cristal_cents_lb_fob", Val.num equivalente_cristal_cents_lb_fob)],
      errors := [] }

/-- Export Crystal sugar (malha 30) calculator, embedding
`calc_acucar_cristal_exportacao_malha30`. -/
def calc_acucar_cristal_exportacao_malha30 (inputs globais : Params) : CalcResult :=
  let acucar_ny_cents_lb := pget inputs "acucar_ny_cents_lb" 0
  let premio_fisico_exportacao_malha30 := pget inputs "premio_fisico_exportacao_malha30" 0
  let cambio_brl_usd := pget globais "cambio_brl_usd" 1
  let custo_terminal_usd_ton := pget globais "custo_terminal_usd_ton" 0
  let frete_brl_ton := pget globais "frete_brl_ton" 0
  let custo_fobizacao_container_brl_ton := pget globais "custo_fobizacao_container_brl_ton" 0
  let custo_vhp_para_cristal := pget globais "custo_vhp_para_cristal" 0
  if cambio_brl_usd ≤ 0 then
    { values := [], errors := ["Câmbio deve ser maior que zero"] }
  else
    let acucar_ny_usd_ton := acucar_ny_cents_lb * 22.04622
    let acucar_com_premio_usd_ton := acucar_ny_usd_ton + premio_fisico_exportacao_malha30
    let acucar_com_premio_brl_ton := acucar_com_premio_usd_ton * cambio_brl_usd
    let equivalente_cristal_reais_saca_pvu :=
      (acucar_com_premio_brl_ton - custo_fobizacao_container_brl_ton - frete_brl_ton) /
        SACAS_POR_TON
    let equivalente_vhp_reais_saca_pvu :=
      equivalente_cristal_reais_saca_pvu - custo_vhp_para_cristal
    let equivalente_vhp_cents_lb_pvu :=
      ((equivalente_vhp_reais_saca_pvu * SACAS_POR_TON) /
        FATOR_CONVERSAO_CENTS_LB_PARA_TON) / cambio_brl_usd
    let custo_terminal_brl_ton := custo_terminal_usd_ton * cambio_brl_usd
    let equivalente_vhp_cents_lb_fob :=
      (((equivalente_vhp_reais_saca_pvu * SACAS_POR_TON) + frete_brl_ton +
          custo_terminal_brl_ton) / FATOR_CONVERSAO_CENTS_LB_PARA_TON) / cambio_brl_usd
    let equivalente_cristal_cents_lb_pvu :=
      ((equivalente_cristal_reais_saca_pvu * SACAS_POR_TON) /
        FATOR_CONVERSAO_CENTS_LB_PARA_TON) / cambio_brl_usd
    let equivalente_cristal_cents_lb_fob :=
      ((acucar_ny_cents_lb * 22.04622) + premio_fisico_exportacao_malha30) / 22.0462
    { values :=
        [("equivalente_cristal_reais_saca_pvu", Val.num equivalente_cristal_reais_saca_pvu),
         ("equivalente_vhp_reais_saca_pvu", Val.num equivalente_vhp_reais_saca_pvu),
         ("equivalente_vhp_cents_lb_pvu", Val.num equivalente_vhp_cents_lb_pvu),
         ("equivalente_vhp_cents_lb_fob", Val.num equivalente_vhp_cents_lb_fob),
         ("equivalente_cristal_cents_lb_pvu", Val.num equivalente_cristal_cents_lb_pvu),
         ("equivalente_cristal_cents_lb_fob", Val.num equivalente_cristal_cents_lb_fob)],
      errors := [] }

/-- C1: whenever the exchange rate parameter is ≤ 0, each of the nine
calculators short-circuits, returning a result whose errors list is exactly
["Câmbio deve ser maior que zero"] and whose values mapping is empty. -/
theorem cambio_nonpositive_short_circuits (inputs globais : Params)
    (h : pget globais "cambio_brl_usd" 1 ≤ 0) :
    calc_acucar_vhp_detalhado inputs globais =
        ⟨[], ["Câmbio deve ser maior que zero"]⟩ ∧
      calc_acucar_cristal_esalq inputs globais =
        ⟨[], ["Câmbio deve ser maior que zero"]⟩ ∧
      calc_paridade_comercializacao_mi_ny inputs globais =
        ⟨[], ["Câmbio deve ser maior que zero"]⟩ ∧
      calc_acucar_cristal_exportacao inputs globais =
        ⟨[], ["Câmbio deve ser maior que zero"]⟩ ∧
      calc_acucar_cristal_exportacao_malha30 inputs globais =
        ⟨[], ["Câmbio deve ser maior que zero"]⟩ ∧
      calc_etanol_anidro_exportacao inputs globais =
        ⟨[], ["Câmbio deve ser maior que zero"]⟩ ∧
      calc_etanol_hidratado_exportacao inputs globais =
        ⟨[], ["Câmbio deve ser maior que zero"]⟩ ∧
      calc_etanol_anidro_mercado_interno inputs globais =
        ⟨[], ["Câmbio deve ser maior que zero"]⟩ ∧
      calc_etanol_hidratado_mercado_interno inputs globais =
        ⟨[], ["Câmbio deve ser maior que zero"]⟩ := by
  simp only [calc_acucar_vhp_detalhado, calc_acucar_cristal_esalq,
    calc_paridade_comercializacao_mi_ny, calc_acucar_cristal_exportacao,
    calc_acucar_cristal_exportacao_malha30, calc_etanol_anidro_exportacao,
    calc_etanol_hidratado_exportacao, calc_etanol_anidro_mercado_interno,
    calc_etanol_hidratado_mercado_interno, if_pos h]
  exact ⟨trivial, trivial, trivial, trivial, trivial, trivial, trivial, trivial, trivial⟩

/-- Witness for C1 at the concrete exchange rate 0. -/
theorem cambio_nonpositive_short_circuits_witness :
    pget [("cambio_brl_usd", 0)] "cambio_brl_usd" 1 ≤ 0 ∧
      (calc_acucar_vhp_detalhado [] [("cambio_brl_usd", 0)] =
          ⟨[], ["Câmbio deve ser maior que zero"]⟩ ∧
        calc_acucar_cristal_esalq [] [("cambio_brl_usd", 0)] =
          ⟨[], ["Câmbio deve ser maior que zero"]⟩ ∧
        calc_paridade_comercializacao_mi_ny [] [("cambio_brl_usd", 0)] =
          ⟨[], ["Câmbio deve ser maior que zero"]⟩ ∧
        calc_acucar_cristal_exportacao [] [("cambio_brl_usd", 0)] =
          ⟨[], ["Câmbio deve ser maior que zero"]⟩ ∧
        calc_acucar_cristal_exportacao_malha30 [] [("cambio_brl_usd", 0)] =
          ⟨[], ["Câmbio deve ser maior que zero"]⟩ ∧
        calc_etanol_anidro_exportacao [] [("cambio_brl_usd", 0)] =
          ⟨[], ["Câmbio deve ser maior que zero"]⟩ ∧
        calc_etanol_hidratado_exportacao [] [("cambio_brl_usd", 0)] =
          ⟨[], ["Câmbio deve ser maior que zero"]⟩ ∧
        calc_etanol_anidro_mercado_interno [] [("cambio_brl_usd", 0)] =
          ⟨[], ["Câmbio deve ser maior que zero"]⟩ ∧
        calc_etanol_hidratado_mercado_interno [] [("cambio_brl_usd", 0)] =
          ⟨[], ["Câmbio deve ser maior que zero"]⟩) :=
  ⟨by decide, cambio_nonpositive_short_circuits [] [("cambio_brl_usd", 0)] (by decide)⟩

/-- C2: on the success path (exchange rate > 0) the VHP calculator's step 4
output `equivalente_vhp_cents_lb_fob` is exactly the step 1 output
`sugar_ny_mais_pol_cents_lb`. -/
theorem vhp_step4_eq_step1 (inputs globais : Params)
    (h : 0 < pget globais "cambio_brl_usd" 1) :
    numLookup (calc_acucar_vhp_detalhado inputs globais) "equivalente_vhp_cents_lb_fob" =
      numLookup (calc_acucar_vhp_detalhado inputs globais) "sugar_ny_mais_pol_cents_lb" := by
  simp only [calc_acucar_vhp_detalhado]
  rw [if_neg (not_le.mpr h)]
  rfl

/-- Witness for C2 at a concrete positive exchange rate. -/
theorem vhp_step4_eq_step1_witness :
    0 < pget [("cambio_brl_usd", 5)] "cambio_brl_usd" 1 ∧
      numLookup (calc_acucar_vhp_detalhado [("acucar_ny_cents_lb", 16)]
          [("cambio_brl_usd", 5)]) "equivalente_vhp_cents_lb_fob" =
        numLookup (calc_acucar_vhp_detalhado [("acucar_ny_cents_lb", 16)]
          [("cambio_brl_usd", 5)]) "sugar_ny_mais_pol_cents_lb" :=
  ⟨by decide,
    vhp_step4_eq_step1 [("acucar_ny_cents_lb", 16)] [("cambio_brl_usd", 5)] (by decide)⟩

/-- C3: every calculator is total and returns a result record for all
parameter sets; its errors list is either empty (success path) or the single
validation message — in the embedding no other failure can arise, so no
exception ever crosses the calculator boundary. -/
theorem calculators_never_raise (inputs globais : Params) :
    ((calc_acucar_vhp_detalhado inputs globais).errors = [] ∨
        (calc_acucar_vhp_detalhado inputs globais).errors =
          ["Câmbio deve ser maior que zero"]) ∧
      ((calc_acucar_cristal_esalq inputs globais).errors = [] ∨
        (calc_acucar_cristal_esalq inputs globais).errors =
          ["Câmbio deve ser maior que zero"]) ∧
      ((calc_paridade_comercializacao_mi_ny inputs globais).errors = [] ∨
        (calc_paridade_comercializacao_mi_ny inputs globais).errors =
          ["Câmbio deve ser maior que zero"]) ∧
      ((calc_acucar_cristal_exportacao inputs globais).errors = [] ∨
        (calc_acucar_cristal_exportacao inputs globais).errors =
          ["Câmbio deve ser maior que zero"]) ∧
      ((calc_acucar_cristal_exportacao_malha30 inputs globais).errors = [] ∨
        (calc_acucar_cristal_exportacao_malha30 inputs globais).errors =
          ["Câmbio deve ser maior que zero"]) ∧
      ((calc_etanol_anidro_exportacao inputs globais).errors = [] ∨
        (calc_etanol_anidro_exportacao inputs globais).errors =
          ["Câmbio deve ser maior que zero"]) ∧
      ((calc_etanol_hidratado_exportacao inputs globais).errors = [] ∨
        (calc_etanol_hidratado_exportacao inputs globais).errors =
          ["Câmbio deve ser maior que zero"]) ∧
      ((calc_etanol_anidro_mercado_interno inputs globais).errors = [] ∨
        (calc_etanol_anidro_mercado_interno inputs globais).errors =
          ["Câmbio deve ser maior que zero"]) ∧
      ((calc_etanol_hidratado_mercado_interno inputs globais).errors = [] ∨
        (calc_etanol_hidratado_mercado_interno inputs globais).errors =
          ["Câmbio deve ser maior que zero"]) := by
  rcases le_or_lt (pget globais "cambio_brl_usd" 1) 0 with h | h
  · simp only [calc_acucar_vhp_detalhado, calc_acucar_cristal_esalq,
      calc_paridade_comercializacao_mi_ny, calc_acucar_cristal_exportacao,
      calc_acucar_cristal_exportacao_malha30, calc_etanol_anidro_exportacao,
      calc_etanol_hidratado_exportacao, calc_etanol_anidro_mercado_interno,
      calc_etanol_hidratado_mercado_interno, if_pos h]
    exact ⟨Or.inr trivial, Or.inr trivial, Or.inr trivial, Or.inr trivial, Or.inr trivial,
      Or.inr trivial, Or.inr trivial, Or.inr trivial, Or.inr trivial⟩
  · simp only [calc_acucar_vhp_detalhado, calc_acucar_cristal_esalq,
      calc_paridade_comercializacao_mi_ny, calc_acucar_cristal_exportacao,
      calc_acucar_cristal_exportacao_malha30, calc_etanol_anidro_exportacao,
      calc_etanol_hidratado_exportacao, calc_etanol_anidro_mercado_interno,
      calc_etanol_hidratado_mercado_interno, if_neg (not_le.mpr h)]
    exact ⟨Or.inl trivial, Or.inl trivial, Or.inl trivial, Or.inl trivial, Or.inl trivial,
      Or.inl trivial, Or.inl trivial, Or.inl trivial, Or.inl trivial⟩

/-- C9: with empty inputs and empty globals (every parameter missing, so every
input defaults to 0 and the exchange rate defaults to 1), each of the nine
calculators returns no errors and a fully populated values mapping. -/
theorem missing_params_no_errors :
    ((calc_acucar_vhp_detalhado [] []).errors = [] ∧
      (calc_acucar_vhp_detalhado [] []).values.map Prod.fst =
        ["sugar_ny_mais_pol_cents_lb", "equivalente_vhp_reais_saca_pvu",
         "equivalente_vhp_cents_lb_pvu", "equivalente_vhp_cents_lb_fob",
         "desenvolvimento"]) ∧
    ((calc_acucar_cristal_esalq [] []).errors = [] ∧
      (calc_acucar_cristal_esalq [] []).values.map Prod.fst =
        ["equivalente_cristal_reais_saca_pvu", "equivalente_vhp_reais_saca_pvu",
         "equivalente_vhp_cents_lb_pvu", "equivalente_vhp_cents_lb_fob",
         "equivalente_cristal_cents_lb_pvu", "equivalente_cristal_cents_lb_fob"]) ∧
    ((calc_paridade_comercializacao_mi_ny [] []).errors = [] ∧
      (calc_paridade_comercializacao_mi_ny [] []).values.map Prod.fst =
        ["equivalente_cristal_reais_saca_pvu", "equivalente_vhp_reais_saca_pvu",
         "equivalente_vhp_cents_lb_pvu", "equivalente_vhp_cents_lb_fob",
         "equivalente_cristal_cents_lb_pvu", "equivalente_cristal_cents_lb_fob"]) ∧
    ((calc_acucar_cristal_exportacao [] []).errors = [] ∧
      (calc_acucar_cristal_exportacao [] []).values.map Prod.fst =
        ["equivalente_cristal_reais_saca_pvu", "equivalente_vhp_reais_saca_pvu",
         "equivalente_vhp_cents_lb_pvu", "equivalente_vhp_cents_lb_fob",
         "equivalente_cristal_cents_lb_pvu", "equivalente_cristal_cents_lb_fob"]) ∧
    ((calc_acucar_cristal_exportacao_malha30 [] []).errors = [] ∧
      (calc_acucar_cristal_exportacao_malha30 [] []).values.map Prod.fst =
        ["equivalente_cristal_reais_saca_pvu", "equivalente_vhp_reais_saca_pvu",
         "equivalente_vhp_cents_lb_pvu", "equivalente_vhp_cents_lb_fob",
         "equivalente_cristal_cents_lb_pvu", "equivalente_cristal_cents_lb_fob"]) ∧
    ((calc_etanol_anidro_exportacao [] []).errors = [] ∧
      (calc_etanol_anidro_exportacao [] []).values.map Prod.fst =
        ["preco_liquido_pvu", "equivalente_vhp_reais_saca_pvu",
         "equivalente_vhp_cents_lb_pvu", "equivalente_vhp_cents_lb_fob"]) ∧
    ((calc_etanol_hidratado_exportacao [] []).errors = [] ∧
      (calc_etanol_hidratado_exportacao [] []).values.map Prod.fst =
        ["preco_liquido_pvu", "equivalente_vhp_reais_saca_pvu",
         "equivalente_vhp_cents_lb_pvu", "equivalente_vhp_cents_lb_fob"]) ∧
    ((calc_etanol_anidro_mercado_interno [] []).errors = [] ∧
      (calc_etanol_anidro_mercado_interno [] []).values.map Prod.fst =
        ["preco_liquido_pvu", "cbio_liquido_impostos", "preco_liquido_pvu_mais_cbio",
         "equivalente_hidratado", "equivalente_vhp_reais_saca_pvu",
         "equivalente_vhp_cents_lb_pvu", "equivalente_vhp_cents_lb_fob",
         "equivalente_cristal_cents_lb_pvu", "equivalente_cristal_reais_saca_pvu",
         "equivalente_cristal_cents_lb_fob"]) ∧
    ((calc_etanol_hidratado_mercado_interno [] []).errors = [] ∧
      (calc_etanol_hidratado_mercado_interno [] []).values.map Prod.fst =
        ["preco_liquido_pvu", "preco_liquido_pvu_mais_cbio", "equivalente_anidro",
         "preco_liquido_pvu_mais_cbio_mais_credito", "equivalente_vhp_reais_saca_pvu",
         "equivalente_vhp_cents_lb_pvu", "equivalente_vhp_cents_lb_fob",
         "equivalente_cristal_cents_lb_pvu", "equivalente_cristal_reais_saca_pvu",
         "equivalente_cristal_cents_lb_fob"]) :=
  ⟨⟨rfl, rfl⟩, ⟨rfl, rfl⟩, ⟨rfl, rfl⟩, ⟨rfl, rfl⟩, ⟨rfl, rfl⟩, ⟨rfl, rfl⟩,
    ⟨rfl, rfl⟩, ⟨rfl, rfl⟩, ⟨rfl, rfl⟩⟩

/-- C4: on the success path, the ESALQ Crystal calculator computes, in order,
the six claimed formulas: net-of-tax Crystal ex-mill price, VHP-equivalent
ex-mill price, VHP per-pound ex-mill, VHP per-pound FOB, Crystal per-pound
ex-mill with the fixed 15-unit adjustment, and Crystal per-pound FOB with the
distinct conversion constant 22.04622 (all other conversions use 22.0462). -/
theorem esalq_formula_chain (inputs globais : Params)
    (h : 0 < pget globais "cambio_brl_usd" 1) :
    numLookup (calc_acucar_cristal_esalq inputs globais)
        "equivalente_cristal_reais_saca_pvu" =
      some (pget inputs "preco_esalq_brl_saca" 0 *
        (1 - (if 1 < pget inputs "imposto" 0 then pget inputs "imposto" 0 / 100
              else pget inputs "imposto" 0))) ∧
    numLookup (calc_acucar_cristal_esalq inputs globais)
        "equivalente_vhp_reais_saca_pvu" =
      some (pget inputs "preco_esalq_brl_saca" 0 *
        (1 - (if 1 < pget inputs "imposto" 0 then pget inputs "imposto" 0 / 100
              else pget inputs "imposto" 0)) -
        pget inputs "custo_vhp_para_cristal" 0) ∧
    numLookup (calc_acucar_cristal_esalq inputs globais)
        "equivalente_vhp_cents_lb_pvu" =
      some ((pget inputs "preco_esalq_brl_saca" 0 *
          (1 - (if 1 < pget inputs "imposto" 0 then pget inputs "imposto" 0 / 100
                else pget inputs "imposto" 0)) -
          pget inputs "custo_vhp_para_cristal" 0) * 20 / 22.0462 /
        pget globais "cambio_brl_usd" 1) ∧
    numLookup (calc_acucar_cristal_esalq inputs globais)
        "equivalente_vhp_cents_lb_fob" =
      some (((pget inputs "preco_esalq_brl_saca" 0 *
          (1 - (if 1 < pget inputs "imposto" 0 then pget inputs "imposto" 0 / 100
                else pget inputs "imposto" 0)) -
          pget inputs "custo_vhp_para_cristal" 0) * 20 +
          pget inputs "frete_santos_usina_brl_ton" 0 +
          pget globais "custo_terminal_usd_ton" 0 * pget globais "cambio_brl_usd" 1) /
        22.0462 / pget globais "cambio_brl_usd" 1) ∧
    numLookup (calc_acucar_cristal_esalq inputs globais)
        "equivalente_cristal_cents_lb_pvu" =
      some (pget inputs "preco_esalq_brl_saca" 0 *
          (1 - (if 1 < pget inputs "imposto" 0 then pget inputs "imposto" 0 / 100
                else pget inputs "imposto" 0)) * 20 / 22.0462 /
          pget globais "cambio_brl_usd" 1 -
        15 / 22.0462 / pget globais "cambio_brl_usd" 1) ∧
    numLookup (calc_acucar_cristal_esalq inputs globais)
        "equivalente_cristal_cents_lb_fob" =
      some ((pget inputs "preco_esalq_brl_saca" 0 *
          (1 - (if 1 < pget inputs "imposto" 0 then pget inputs "imposto" 0 / 100
                else pget inputs "imposto" 0)) * 20 +
          pget inputs "frete_santos_usina_brl_ton" 0 +
          pget inputs "custo_fobizacao_container_brl_ton" 0) / 22.04622 /
        pget globais "cambio_brl_usd" 1) := by
  simp only [calc_acucar_cristal_esalq]
  rw [if_neg (not_le.mpr h)]
  exact ⟨rfl, rfl, rfl, rfl, rfl, rfl⟩

/-- Witness for C4 at a concrete valuation. -/
theorem esalq_formula_chain_witness :
    0 < pget [("cambio_brl_usd", 5), ("custo_terminal_usd_ton", 12)]
        "cambio_brl_usd" 1 ∧
      numLookup (calc_acucar_cristal_esalq
          [("preco_esalq_brl_saca", 100), ("imposto", 10),
           ("frete_santos_usina_brl_ton", 50),
           ("custo_fobizacao_container_brl_ton", 30), ("custo_vhp_para_cristal", 9)]
          [("cambio_brl_usd", 5), ("custo_terminal_usd_ton", 12)])
          "equivalente_cristal_reais_saca_pvu" =
        some (pget [("preco_esalq_brl_saca", 100), ("imposto", 10),
           ("frete_santos_usina_brl_ton", 50),
           ("custo_fobizacao_container_brl_ton", 30), ("custo_vhp_para_cristal", 9)]
           "preco_esalq_brl_saca" 0 *
          (1 - (if 1 < pget [("preco_esalq_brl_saca", 100), ("imposto", 10),
           ("frete_santos_usina_brl_ton", 50),
           ("custo_fobizacao_container_brl_ton", 30), ("custo_vhp_para_cristal", 9)]
           "imposto" 0 then pget [("preco_esalq_brl_saca", 100), ("imposto", 10),
           ("frete_santos_usina_brl_ton", 50),
           ("custo_fobizacao_container_brl_ton", 30), ("custo_vhp_para_cristal", 9)]
           "imposto" 0 / 100
              else pget [("preco_esalq_brl_saca", 100), ("imposto", 10),
           ("frete_santos_usina_brl_ton", 50),
           ("custo_fobizacao_container_brl_ton", 30), ("custo_vhp_para_cristal", 9)]
           "imposto" 0))) :=
  ⟨by decide,
    (esalq_formula_chain
      [("preco_esalq_brl_saca", 100), ("imposto", 10),
       ("frete_santos_usina_brl_ton", 50),
       ("custo_fobizacao_container_brl_ton", 30), ("custo_vhp_para_cristal", 9)]
      [("cambio_brl_usd", 5), ("custo_terminal_usd_ton", 12)] (by decide)).1⟩

/-- C6: polarization premium given as 4.2 and as 0.042 yields identical
result records of the VHP calculator, because normalization divides by 100
exactly when the raw value exceeds 1. -/
theorem premio_pol_dual_representation (inputs globais : Params)
    (h : 0 < pget globais "cambio_brl_usd" 1) :
    calc_acucar_vhp_detalhado (("premio_pol", (4.2 : ℚ)) :: inputs) globais =
      calc_acucar_vhp_detalhado (("premio_pol", (0.042 : ℚ)) :: inputs) globais := by
  have e1 : pget (("premio_pol", (4.2 : ℚ)) :: inputs) "acucar_ny_cents_lb" 0 =
      pget inputs "acucar_ny_cents_lb" 0 := rfl
  have e2 : pget (("premio_pol", (4.2 : ℚ)) :: inputs) "premio_desconto" 0 =
      pget inputs "premio_desconto" 0 := rfl
  have e3 : pget (("premio_pol", (4.2 : ℚ)) :: inputs) "custo_terminal_usd_ton" 0 =
      pget inputs "custo_terminal_usd_ton" 0 := rfl
  have e4 : pget (("premio_pol", (4.2 : ℚ)) :: inputs) "frete_brl_ton" 0 =
      pget inputs "frete_brl_ton" 0 := rfl
  have f1 : pget (("premio_pol", (0.042 : ℚ)) :: inputs) "acucar_ny_cents_lb" 0 =
      pget inputs "acucar_ny_cents_lb" 0 := rfl
  have f2 : pget (("premio_pol", (0.042 : ℚ)) :: inputs) "premio_desconto" 0 =
      pget inputs "premio_desconto" 0 := rfl
  have f3 : pget (("premio_pol", (0.042 : ℚ)) :: inputs) "custo_terminal_usd_ton" 0 =
      pget inputs "custo_terminal_usd_ton" 0 := rfl
  have f4 : pget (("premio_pol", (0.042 : ℚ)) :: inputs) "frete_brl_ton" 0 =
      pget inputs "frete_brl_ton" 0 := rfl
  have p1 : pget (("premio_pol", (4.2 : ℚ)) :: inputs) "premio_pol" 0 = 4.2 := rfl
  have p2 : pget (("premio_pol", (0.042 : ℚ)) :: inputs) "premio_pol" 0 = 0.042 := rfl
  have i1 : (if 1 < (4.2 : ℚ) then (4.2 : ℚ) / 100 else (4.2 : ℚ)) = 21 / 500 := by
    norm_num
  have i2 : (if 1 < (0.042 : ℚ) then (0.042 : ℚ) / 100 else (0.042 : ℚ)) = 21 / 500 := by
    norm_num
  simp only [calc_acucar_vhp_detalhado]
  rw [if_neg (not_le.mpr h), if_neg (not_le.mpr h), e1, e2, e3, e4, f1, f2, f3, f4,
    p1, p2, i1, i2]

/-- Witness for C6 at a concrete parameter set. -/
theorem premio_pol_dual_representation_witness :
    0 < pget [("cambio_brl_usd", 5)] "cambio_brl_usd" 1 ∧
      calc_acucar_vhp_detalhado
          (("premio_pol", (4.2 : ℚ)) :: [("acucar_ny_cents_lb", 16)])
          [("cambio_brl_usd", 5)] =
        calc_acucar_vhp_detalhado
          (("premio_pol", (0.042 : ℚ)) :: [("acucar_ny_cents_lb", 16)])
          [("cambio_brl_usd", 5)] :=
  ⟨by decide,
    premio_pol_dual_representation [("acucar_ny_cents_lb", 16)]
      [("cambio_brl_usd", 5)] (by decide)⟩

/-- C5: the domestic, export, and export-malha30 Crystal calculators produce
identical values when given the same NY price, equal premium values in their
respective premium fields, the same globals, and zero fobization and freight
costs (the costs the export variants subtract and the domestic one does not). -/
theorem crystal_variants_agree (imi iex im30 globais : Params)
    (hc : 0 < pget globais "cambio_brl_usd" 1)
    (ha12 : pget imi "acucar_ny_cents_lb" 0 = pget iex "acucar_ny_cents_lb" 0)
    (ha23 : pget iex "acucar_ny_cents_lb" 0 = pget im30 "acucar_ny_cents_lb" 0)
    (hp12 : pget imi "premio_fisico_mi" 0 = pget iex "premio_fisico_exportacao" 0)
    (hp23 : pget iex "premio_fisico_exportacao" 0 =
      pget im30 "premio_fisico_exportacao_malha30" 0)
    (hfs : pget globais "frete_santos_usina_brl_ton" 0 = 0)
    (hfb : pget globais "frete_brl_ton" 0 = 0)
    (hfob : pget globais "custo_fobizacao_container_brl_ton" 0 = 0) :
    (calc_paridade_comercializacao_mi_ny imi globais).values =
        (calc_acucar_cristal_exportacao iex globais).values ∧
      (calc_acucar_cristal_exportacao iex globais).values =
        (calc_acucar_cristal_exportacao_malha30 im30 globais).values := by
  have hcne : pget globais "cambio_brl_usd" 1 ≠ 0 := ne_of_gt hc
  simp only [calc_paridade_comercializacao_mi_ny, calc_acucar_cristal_exportacao,
    calc_acucar_cristal_exportacao_malha30]
  rw [if_neg (not_le.mpr hc), if_neg (not_le.mpr hc), if_neg (not_le.mpr hc),
    ha12, ha23, hp12, hp23, hfs, hfb, hfob]
  refine ⟨?_, ?_⟩
  · simp only [List.cons.injEq, Prod.mk.injEq, Val.num.injEq, and_true, true_and]
    repeat' apply And.intro
    all_goals field_simp [SACAS_POR_TON, FATOR_CONVERSAO_CENTS_LB_PARA_TON]
    all_goals ring
  · rfl

/-- Witness for C5 at a concrete valuation with zero freight and fobization. -/
theorem crystal_variants_agree_witness :
    0 < pget [("cambio_brl_usd", 5), ("custo_terminal_usd_ton", 12),
        ("custo_vhp_para_cristal", 9), ("frete_santos_usina_brl_ton", 0),
        ("frete_brl_ton", 0), ("custo_fobizacao_container_brl_ton", 0)]
        "cambio_brl_usd" 1 ∧
      pget [("acucar_ny_cents_lb", 10), ("premio_fisico_mi", 2)]
          "acucar_ny_cents_lb" 0 =
        pget [("acucar_ny_cents_lb", 10), ("premio_fisico_exportacao", 2)]
          "acucar_ny_cents_lb" 0 ∧
      pget [("acucar_ny_cents_lb", 10), ("premio_fisico_mi", 2)] "premio_fisico_mi" 0 =
        pget [("acucar_ny_cents_lb", 10), ("premio_fisico_exportacao", 2)]
          "premio_fisico_exportacao" 0 ∧
      (calc_paridade_comercializacao_mi_ny
            [("acucar_ny_cents_lb", 10), ("premio_fisico_mi", 2)]
            [("cambio_brl_usd", 5), ("custo_terminal_usd_ton", 12),
             ("custo_vhp_para_cristal", 9), ("frete_santos_usina_brl_ton", 0),
             ("frete_brl_ton", 0), ("custo_fobizacao_container_brl_ton", 0)]).values =
          (calc_acucar_cristal_exportacao
            [("acucar_ny_cents_lb", 10), ("premio_fisico_exportacao", 2)]
            [("cambio_brl_usd", 5), ("custo_terminal_usd_ton", 12),
             ("custo_vhp_para_cristal", 9), ("frete_santos_usina_brl_ton", 0),
             ("frete_brl_ton", 0), ("custo_fobizacao_container_brl_ton", 0)]).values ∧
        (calc_acucar_cristal_exportacao
            [("acucar_ny_cents_lb", 10), ("premio_fisico_exportacao", 2)]
            [("cambio_brl_usd", 5), ("custo_terminal_usd_ton", 12),
             ("custo_vhp_para_cristal", 9), ("frete_santos_usina_brl_ton", 0),
             ("frete_brl_ton", 0), ("custo_fobizacao_container_brl_ton", 0)]).values =
          (calc_acucar_cristal_exportacao_malha30
            [("acucar_ny_cents_lb", 10), ("premio_fisico_exportacao_malha30", 2)]
            [("cambio_brl_usd", 5), ("custo_terminal_usd_ton", 12),
             ("custo_vhp_para_cristal", 9), ("frete_santos_usina_brl_ton", 0),
             ("frete_brl_ton", 0), ("custo_fobizacao_container_brl_ton", 0)]).values :=
  ⟨by decide, rfl, rfl,
    crystal_variants_agree
      [("acucar_ny_cents_lb", 10), ("premio_fisico_mi", 2)]
      [("acucar_ny_cents_lb", 10), ("premio_fisico_exportacao", 2)]
      [("acucar_ny_cents_lb", 10), ("premio_fisico_exportacao_malha30", 2)]
      [("cambio_brl_usd", 5), ("custo_terminal_usd_ton", 12),
       ("custo_vhp_para_cristal", 9), ("frete_santos_usina_brl_ton", 0),
       ("frete_brl_ton", 0), ("custo_fobizacao_container_brl_ton", 0)]
      (by decide) rfl rfl rfl rfl rfl rfl rfl⟩

/-- C7: in both domestic-market ethanol calculators the CBIO net-of-tax value
is (valor_cbio_bruto × 0.7575) × 0.6, depending on no other parameter: the
anhydrous calculator stores it under cbio_liquido_impostos, and the hydrated
calculator folds exactly that value into preco_liquido_pvu_mais_cbio. -/
theorem cbio_net_of_tax_formula (inputs globais : Params)
    (h : 0 < pget globais "cambio_brl_usd" 1) :
    numLookup (calc_etanol_anidro_mercado_interno inputs globais)
        "cbio_liquido_impostos" =
      some ((pget inputs "valor_cbio_bruto" 0 * 0.7575) * 0.6) ∧
    numLookup (calc_etanol_hidratado_mercado_interno inputs globais)
        "preco_liquido_pvu_mais_cbio" =
      (numLookup (calc_etanol_hidratado_mercado_interno inputs globais)
          "preco_liquido_pvu").map
        (fun x => x + (((pget inputs "valor_cbio_bruto" 0 * 0.7575) * 0.6) / 749.75) *
          1000) := by
  simp only [calc_etanol_anidro_mercado_interno, calc_etanol_hidratado_mercado_interno]
  rw [if_neg (not_le.mpr h), if_neg (not_le.mpr h)]
  exact ⟨rfl, rfl⟩

/-- Witness for C7: gross CBIO of 100 yields 45.45, with every other
parameter missing (exchange rate defaulting to 1). -/
theorem cbio_net_of_tax_formula_witness :
    0 < pget [] "cambio_brl_usd" 1 ∧
      numLookup (calc_etanol_anidro_mercado_interno [("valor_cbio_bruto", 100)] [])
          "cbio_liquido_impostos" = some 45.45 :=
  ⟨by decide, by
    rw [(cbio_net_of_tax_formula [("valor_cbio_bruto", 100)] [] (by decide)).1]
    norm_num [pget, List.lookup]⟩

/-- Helper: applying the inverse per-bag formula to the per-pound ex-mill
conversion cancels exactly (nonzero exchange rate). -/
theorem roundtrip_cancel (R c : ℚ) (hc : c ≠ 0) :
    ((R * SACAS_POR_TON) / FATOR_CONVERSAO_CENTS_LB_PARA_TON) / c * 22.0462 / 20 * c - R
      = 0 := by
  field_simp [SACAS_POR_TON, FATOR_CONVERSAO_CENTS_LB_PARA_TON]
  ring

/-- C8: the Crystal per-pound ex-mill value inverts the per-bag conversion:
recomputing per-bag as per-pound × 22.0462 / 20 × exchange rate returns the
original per-bag value (within 1e-9; here exactly) in the domestic parity
calculator, and in both domestic ethanol calculators the stored per-bag value
is obtained from the per-pound value by exactly that inverse formula. -/
theorem crystal_roundtrip (inputs globais : Params)
    (h : 0 < pget globais "cambio_brl_usd" 1) :
    (∃ r q,
      numLookup (calc_paridade_comercializacao_mi_ny inputs globais)
          "equivalente_cristal_reais_saca_pvu" = some r ∧
        numLookup (calc_paridade_comercializacao_mi_ny inputs globais)
          "equivalente_cristal_cents_lb_pvu" = some q ∧
        |q * 22.0462 / 20 * pget globais "cambio_brl_usd" 1 - r| ≤ 1 / 1000000000) ∧
    numLookup (calc_etanol_anidro_mercado_interno inputs globais)
        "equivalente_cristal_reais_saca_pvu" =
      (numLookup (calc_etanol_anidro_mercado_interno inputs globais)
          "equivalente_cristal_cents_lb_pvu").map
        (fun q => q * 22.0462 / 20 * pget globais "cambio_brl_usd" 1) ∧
    numLookup (calc_etanol_hidratado_mercado_interno inputs globais)
        "equivalente_cristal_reais_saca_pvu" =
      (numLookup (calc_etanol_hidratado_mercado_interno inputs globais)
          "equivalente_cristal_cents_lb_pvu").map
        (fun q => q * 22.0462 / 20 * pget globais "cambio_brl_usd" 1) := by
  have hcne : pget globais "cambio_brl_usd" 1 ≠ 0 := ne_of_gt h
  simp only [calc_paridade_comercializacao_mi_ny, calc_etanol_anidro_mercado_interno,
    calc_etanol_hidratado_mercado_interno]
  rw [if_neg (not_le.mpr h), if_neg (not_le.mpr h), if_neg (not_le.mpr h)]
  refine ⟨⟨_, _, rfl, rfl, ?_⟩, rfl, rfl⟩
  rw [roundtrip_cancel _ _ hcne]
  norm_num

/-- Witness for C8 at a concrete parameter set. -/
theorem crystal_roundtrip_witness :
    0 < pget [("cambio_brl_usd", 4)] "cambio_brl_usd" 1 ∧
      ((∃ r q,
        numLookup (calc_paridade_comercializacao_mi_ny [("acucar_ny_cents_lb", 10)]
            [("cambio_brl_usd", 4)]) "equivalente_cristal_reais_saca_pvu" = some r ∧
          numLookup (calc_paridade_comercializacao_mi_ny [("acucar_ny_cents_lb", 10)]
            [("cambio_brl_usd", 4)]) "equivalente_cristal_cents_lb_pvu" = some q ∧
          |q * 22.0462 / 20 * pget [("cambio_brl_usd", 4)] "cambio_brl_usd" 1 - r| ≤
            1 / 1000000000) ∧
      numLookup (calc_etanol_anidro_mercado_interno [("acucar_ny_cents_lb", 10)]
          [("cambio_brl_usd", 4)]) "equivalente_cristal_reais_saca_pvu" =
        (numLookup (calc_etanol_anidro_mercado_interno [("acucar_ny_cents_lb", 10)]
            [("cambio_brl_usd", 4)]) "equivalente_cristal_cents_lb_pvu").map
          (fun q => q * 22.0462 / 20 * pget [("cambio_brl_usd", 4)] "cambio_brl_usd" 1) ∧
      numLookup (calc_etanol_hidratado_mercado_interno [("acucar_ny_cents_lb", 10)]
          [("cambio_brl_usd", 4)]) "equivalente_cristal_reais_saca_pvu" =
        (numLookup (calc_etanol_hidratado_mercado_interno [("acucar_ny_cents_lb", 10)]
            [("cambio_brl_usd", 4)]) "equivalente_cristal_cents_lb_pvu").map
          (fun q => q * 22.0462 / 20 * pget [("cambio_brl_usd", 4)] "cambio_brl_usd" 1)) :=
  ⟨by decide, crystal_roundtrip [("acucar_ny_cents_lb", 10)] [("cambio_brl_usd", 4)]
    (by decide)⟩

/-- C10: in both export Crystal calculators the output
equivalente_cristal_cents_lb_fob equals ((acucar_ny_cents_lb × 22.04622) +
premium) / 22.0462, so it depends only on the NY price and the respective
premium: two runs agreeing on those two inputs give equal values however the
exchange rate and cost parameters differ, while each of the other five
outputs does change with the exchange rate at a concrete parameter set. -/
theorem export_cristal_fob_only_ny_and_premium :
    (∀ inputs globais : Params, 0 < pget globais "cambio_brl_usd" 1 →
      numLookup (calc_acucar_cristal_exportacao inputs globais)
          "equivalente_cristal_cents_lb_fob" =
        some (((pget inputs "acucar_ny_cents_lb" 0 * 22.04622) +
          pget inputs "premio_fisico_exportacao" 0) / 22.0462) ∧
      numLookup (calc_acucar_cristal_exportacao_malha30 inputs globais)
          "equivalente_cristal_cents_lb_fob" =
        some (((pget inputs "acucar_ny_cents_lb" 0 * 22.04622) +
          pget inputs "premio_fisico_exportacao_malha30" 0) / 22.0462)) ∧
    (∀ i1 g1 i2 g2 : Params, 0 < pget g1 "cambio_brl_usd" 1 →
      0 < pget g2 "cambio_brl_usd" 1 →
      pget i1 "acucar_ny_cents_lb" 0 = pget i2 "acucar_ny_cents_lb" 0 →
      pget i1 "premio_fisico_exportacao" 0 = pget i2 "premio_fisico_exportacao" 0 →
      pget i1 "premio_fisico_exportacao_malha30" 0 =
        pget i2 "premio_fisico_exportacao_malha30" 0 →
      numLookup (calc_acucar_cristal_exportacao i1 g1)
          "equivalente_cristal_cents_lb_fob" =
        numLookup (calc_acucar_cristal_exportacao i2 g2)
          "equivalente_cristal_cents_lb_fob" ∧
      numLookup (calc_acucar_cristal_exportacao_malha30 i1 g1)
          "equivalente_cristal_cents_lb_fob" =
        numLookup (calc_acucar_cristal_exportacao_malha30 i2 g2)
          "equivalente_cristal_cents_lb_fob") ∧
      numLookup (calc_acucar_cristal_exportacao
          [("acucar_ny_cents_lb", 10), ("premio_fisico_exportacao", 1),
           ("premio_fisico_exportacao_malha30", 1)]
          [("cambio_brl_usd", 1), ("custo_terminal_usd_ton", 3), ("frete_brl_ton", 40),
           ("custo_fobizacao_container_brl_ton", 20), ("custo_vhp_para_cristal", 5)]) "equivalente_cristal_reais_saca_pvu" ≠
        numLookup (calc_acucar_cristal_exportacao
          [("acucar_ny_cents_lb", 10), ("premio_fisico_exportacao", 1),
           ("premio_fisico_exportacao_malha30", 1)]
          [("cambio_brl_usd", 2), ("custo_terminal_usd_ton", 3), ("frete_brl_ton", 40),
           ("custo_fobizacao_container_brl_ton", 20), ("custo_vhp_para_cristal", 5)]) "equivalente_cristal_reais_saca_pvu" ∧
      numLookup (calc_acucar_cristal_exportacao
          [("acucar_ny_cents_lb", 10), ("premio_fisico_exportacao", 1),
           ("premio_fisico_exportacao_malha30", 1)]
          [("cambio_brl_usd", 1), ("custo_terminal_usd_ton", 3), ("frete_brl_ton", 40),
           ("custo_fobizacao_container_brl_ton", 20), ("custo_vhp_para_cristal", 5)]) "equivalente_vhp_reais_saca_pvu" ≠
        numLookup (calc_acucar_cristal_exportacao
          [("acucar_ny_cents_lb", 10), ("premio_fisico_exportacao", 1),
           ("premio_fisico_exportacao_malha30", 1)]
          [("cambio_brl_usd", 2), ("custo_terminal_usd_ton", 3), ("frete_brl_ton", 40),
           ("custo_fobizacao_container_brl_ton", 20), ("custo_vhp_para_cristal", 5)]) "equivalente_vhp_reais_saca_pvu" ∧
      numLookup (calc_acucar_cristal_exportacao
          [("acucar_ny_cents_lb", 10), ("premio_fisico_exportacao", 1),
           ("premio_fisico_exportacao_malha30", 1)]
          [("cambio_brl_usd", 1), ("custo_terminal_usd_ton", 3), ("frete_brl_ton", 40),
           ("custo_fobizacao_container_brl_ton", 20), ("custo_vhp_para_cristal", 5)]) "equivalente_vhp_cents_lb_pvu" ≠
        numLookup (calc_acucar_cristal_exportacao
          [("acucar_ny_cents_lb", 10), ("premio_fisico_exportacao", 1),
           ("premio_fisico_exportacao_malha30", 1)]
          [("cambio_brl_usd", 2), ("custo_terminal_usd_ton", 3), ("frete_brl_ton", 40),
           ("custo_fobizacao_container_brl_ton", 20), ("custo_vhp_para_cristal", 5)]) "equivalente_vhp_cents_lb_pvu" ∧
      numLookup (calc_acucar_cristal_exportacao
          [("acucar_ny_cents_lb", 10), ("premio_fisico_exportacao", 1),
           ("premio_fisico_exportacao_malha30", 1)]
          [("cambio_brl_usd", 1), ("custo_terminal_usd_ton", 3), ("frete_brl_ton", 40),
           ("custo_fobizacao_container_brl_ton", 20), ("custo_vhp_para_cristal", 5)]) "equivalente_vhp_cents_lb_fob" ≠
        numLookup (calc_acucar_cristal_exportacao
          [("acucar_ny_cents_lb", 10), ("premio_fisico_exportacao", 1),
           ("premio_fisico_exportacao_malha30", 1)]
          [("cambio_brl_usd", 2), ("custo_terminal_usd_ton", 3), ("frete_brl_ton", 40),
           ("custo_fobizacao_container_brl_ton", 20), ("custo_vhp_para_cristal", 5)]) "equivalente_vhp_cents_lb_fob" ∧
      numLookup (calc_acucar_cristal_exportacao
          [("acucar_ny_cents_lb", 10), ("premio_fisico_exportacao", 1),
           ("premio_fisico_exportacao_malha30", 1)]
          [("cambio_brl_usd", 1), ("custo_terminal_usd_ton", 3), ("frete_brl_ton", 40),
           ("custo_fobizacao_container_brl_ton", 20), ("custo_vhp_para_cristal", 5)]) "equivalente_cristal_cents_lb_pvu" ≠
        numLookup (calc_acucar_cristal_exportacao
          [("acucar_ny_cents_lb", 10), ("premio_fisico_exportacao", 1),
           ("premio_fisico_exportacao_malha30", 1)]
          [("cambio_brl_usd", 2), ("custo_terminal_usd_ton", 3), ("frete_brl_ton", 40),
           ("custo_fobizacao_container_brl_ton", 20), ("custo_vhp_para_cristal", 5)]) "equivalente_cristal_cents_lb_pvu" ∧
      numLookup (calc_acucar_cristal_exportacao_malha30
          [("acucar_ny_cents_lb", 10), ("premio_fisico_exportacao", 1),
           ("premio_fisico_exportacao_malha30", 1)]
          [("cambio_brl_usd", 1), ("custo_terminal_usd_ton", 3), ("frete_brl_ton", 40),
           ("custo_fobizacao_container_brl_ton", 20), ("custo_vhp_para_cristal", 5)]) "equivalente_cristal_reais_saca_pvu" ≠
        numLookup (calc_acucar_cristal_exportacao_malha30
          [("acucar_ny_cents_lb", 10), ("premio_fisico_exportacao", 1),
           ("premio_fisico_exportacao_malha30", 1)]
          [("cambio_brl_usd", 2), ("custo_terminal_usd_ton", 3), ("frete_brl_ton", 40),
           ("custo_fobizacao_container_brl_ton", 20), ("custo_vhp_para_cristal", 5)]) "equivalente_cristal_reais_saca_pvu" ∧
      numLookup (calc_acucar_cristal_exportacao_malha30
          [("acucar_ny_cents_lb", 10), ("premio_fisico_exportacao", 1),
           ("premio_fisico_exportacao_malha30", 1)]
          [("cambio_brl_usd", 1), ("custo_terminal_usd_ton", 3), ("frete_brl_ton", 40),
           ("custo_fobizacao_container_brl_ton", 20), ("custo_vhp_para_cristal", 5)]) "equivalente_vhp_reais_saca_pvu" ≠
        numLookup (calc_acucar_cristal_exportacao_malha30
          [("acucar_ny_cents_lb", 10), ("premio_fisico_exportacao", 1),
           ("premio_fisico_exportacao_malha30", 1)]
          [("cambio_brl_usd", 2), ("custo_terminal_usd_ton", 3), ("frete_brl_ton", 40),
           ("custo_fobizacao_container_brl_ton", 20), ("custo_vhp_para_cristal", 5)]) "equivalente_vhp_reais_saca_pvu" ∧
      numLookup (calc_acucar_cristal_exportacao_malha30
          [("acucar_ny_cents_lb", 10), ("premio_fisico_exportacao", 1),
           ("premio_fisico_exportacao_malha30", 1)]
          [("cambio_brl_usd", 1), ("custo_terminal_usd_ton", 3), ("frete_brl_ton", 40),
           ("custo_fobizacao_container_brl_ton", 20), ("custo_vhp_para_cristal", 5)]) "equivalente_vhp_cents_lb_pvu" ≠
        numLookup (calc_acucar_cristal_exportacao_malha30
          [("acucar_ny_cents_lb", 10), ("premio_fisico_exportacao", 1),
           ("premio_fisico_exportacao_malha30", 1)]
          [("cambio_brl_usd", 2), ("custo_terminal_usd_ton", 3), ("frete_brl_ton", 40),
           ("custo_fobizacao_container_brl_ton", 20), ("custo_vhp_para_cristal", 5)]) "equivalente_vhp_cents_lb_pvu" ∧
      numLookup (calc_acucar_cristal_exportacao_malha30
          [("acucar_ny_cents_lb", 10), ("premio_fisico_exportacao", 1),
           ("premio_fisico_exportacao_malha30", 1)]
          [("cambio_brl_usd", 1), ("custo_terminal_usd_ton", 3), ("frete_brl_ton", 40),
           ("custo_fobizacao_container_brl_ton", 20), ("custo_vhp_para_cristal", 5)]) "equivalente_vhp_cents_lb_fob" ≠
        numLookup (calc_acucar_cristal_exportacao_malha30
          [("acucar_ny_cents_lb", 10), ("premio_fisico_exportacao", 1),
           ("premio_fisico_exportacao_malha30", 1)]
          [("cambio_brl_usd", 2), ("custo_terminal_usd_ton", 3), ("frete_brl_ton", 40),
           ("custo_fobizacao_container_brl_ton", 20), ("custo_vhp_para_cristal", 5)]) "equivalente_vhp_cents_lb_fob" ∧
      numLookup (calc_acucar_cristal_exportacao_malha30
          [("acucar_ny_cents_lb", 10), ("premio_fisico_exportacao", 1),
           ("premio_fisico_exportacao_malha30", 1)]
          [("cambio_brl_usd", 1), ("custo_terminal_usd_ton", 3), ("frete_brl_ton", 40),
           ("custo_fobizacao_container_brl_ton", 20), ("custo_vhp_para_cristal", 5)]) "equivalente_cristal_cents_lb_pvu" ≠
        numLookup (calc_acucar_cristal_exportacao_malha30
          [("acucar_ny_cents_lb", 10), ("premio_fisico_exportacao", 1),
           ("premio_fisico_exportacao_malha30", 1)]
          [("cambio_brl_usd", 2), ("custo_terminal_usd_ton", 3), ("frete_brl_ton", 40),
           ("custo_fobizacao_container_brl_ton", 20), ("custo_vhp_para_cristal", 5)]) "equivalente_cristal_cents_lb_pvu" := by
  have key : ∀ inputs globais : Params, 0 < pget globais "cambio_brl_usd" 1 →
      numLookup (calc_acucar_cristal_exportacao inputs globais)
          "equivalente_cristal_cents_lb_fob" =
        some (((pget inputs "acucar_ny_cents_lb" 0 * 22.04622) +
          pget inputs "premio_fisico_exportacao" 0) / 22.0462) ∧
      numLookup (calc_acucar_cristal_exportacao_malha30 inputs globais)
          "equivalente_cristal_cents_lb_fob" =
        some (((pget inputs "acucar_ny_cents_lb" 0 * 22.04622) +
          pget inputs "premio_fisico_exportacao_malha30" 0) / 22.0462) := by
    intro inputs globais h
    simp only [calc_acucar_cristal_exportacao, calc_acucar_cristal_exportacao_malha30]
    rw [if_neg (not_le.mpr h), if_neg (not_le.mpr h)]
    exact ⟨rfl, rfl⟩
  have hq1a : numLookup (calc_acucar_cristal_exportacao
      [("acucar_ny_cents_lb", 10), ("premio_fisico_exportacao", 1),
         ("premio_fisico_exportacao_malha30", 1)]
      [("cambio_brl_usd", 1), ("custo_terminal_usd_ton", 3), ("frete_brl_ton", 40),
         ("custo_fobizacao_container_brl_ton", 20), ("custo_vhp_para_cristal", 5)]) "equivalente_cristal_reais_saca_pvu" =
      some ((((10 : ℚ) * 22.04622 + 1) * 1 - 20 - 40) / SACAS_POR_TON) := rfl
  have hq1b : numLookup (calc_acucar_cristal_exportacao
      [("acucar_ny_cents_lb", 10), ("premio_fisico_exportacao", 1),
         ("premio_fisico_exportacao_malha30", 1)]
      [("cambio_brl_usd", 2), ("custo_terminal_usd_ton", 3), ("frete_brl_ton", 40),
         ("custo_fobizacao_container_brl_ton", 20), ("custo_vhp_para_cristal", 5)]) "equivalente_cristal_reais_saca_pvu" =
      some ((((10 : ℚ) * 22.04622 + 1) * 2 - 20 - 40) / SACAS_POR_TON) := rfl
  have hq2a : numLookup (calc_acucar_cristal_exportacao
      [("acucar_ny_cents_lb", 10), ("premio_fisico_exportacao", 1),
         ("premio_fisico_exportacao_malha30", 1)]
      [("cambio_brl_usd", 1), ("custo_terminal_usd_ton", 3), ("frete_brl_ton", 40),
         ("custo_fobizacao_container_brl_ton", 20), ("custo_vhp_para_cristal", 5)]) "equivalente_vhp_reais_saca_pvu" =
      some ((((10 : ℚ) * 22.04622 + 1) * 1 - 20 - 40) / SACAS_POR_TON - 5) := rfl
  have hq2b : numLookup (calc_acucar_cristal_exportacao
      [("acucar_ny_cents_lb", 10), ("premio_fisico_exportacao", 1),
         ("premio_fisico_exportacao_malha30", 1)]
      [("cambio_brl_usd", 2), ("custo_terminal_usd_ton", 3), ("frete_brl_ton", 40),
         ("custo_fobizacao_container_brl_ton", 20), ("custo_vhp_para_cristal", 5)]) "equivalente_vhp_reais_saca_pvu" =
      some ((((10 : ℚ) * 22.04622 + 1) * 2 - 20 - 40) / SACAS_POR_TON - 5) := rfl
  have hq3a : numLookup (calc_acucar_cristal_exportacao
      [("acucar_ny_cents_lb", 10), ("premio_fisico_exportacao", 1),
         ("premio_fisico_exportacao_malha30", 1)]
      [("cambio_brl_usd", 1), ("custo_terminal_usd_ton", 3), ("frete_brl_ton", 40),
         ("custo_fobizacao_container_brl_ton", 20), ("custo_vhp_para_cristal", 5)]) "equivalente_vhp_cents_lb_pvu" =
      some (((((((10 : ℚ) * 22.04622 + 1) * 1 - 20 - 40) / SACAS_POR_TON - 5) * SACAS_POR_TON) / FATOR_CONVERSAO_CENTS_LB_PARA_TON) / 1) := rfl
  have hq3b : numLookup (calc_acucar_cristal_exportacao
      [("acucar_ny_cents_lb", 10), ("premio_fisico_exportacao", 1),
         ("premio_fisico_exportacao_malha30", 1)]
      [("cambio_brl_usd", 2), ("custo_terminal_usd_ton", 3), ("frete_brl_ton", 40),
         ("custo_fobizacao_container_brl_ton", 20), ("custo_vhp_para_cristal", 5)]) "equivalente_vhp_cents_lb_pvu" =
      some (((((((10 : ℚ) * 22.04622 + 1) * 2 - 20 - 40) / SACAS_POR_TON - 5) * SACAS_POR_TON) / FATOR_CONVERSAO_CENTS_LB_PARA_TON) / 2) := rfl
  have hq4a : numLookup (calc_acucar_cristal_exportacao
      [("acucar_ny_cents_lb", 10), ("premio_fisico_exportacao", 1),
         ("premio_fisico_exportacao_malha30", 1)]
      [("cambio_brl_usd", 1), ("custo_terminal_usd_ton", 3), ("frete_brl_ton", 40),
         ("custo_fobizacao_container_brl_ton", 20), ("custo_vhp_para_cristal", 5)]) "equivalente_vhp_cents_lb_fob" =
      some ((((((((10 : ℚ) * 22.04622 + 1) * 1 - 20 - 40) / SACAS_POR_TON - 5) * SACAS_POR_TON) + 40 + 3 * 1) / FATOR_CONVERSAO_CENTS_LB_PARA_TON) / 1) := rfl
  have hq4b : numLookup (calc_acucar_cristal_exportacao
      [("acucar_ny_cents_lb", 10), ("premio_fisico_exportacao", 1),
         ("premio_fisico_exportacao_malha30", 1)]
      [("cambio_brl_usd", 2), ("custo_terminal_usd_ton", 3), ("frete_brl_ton", 40),
         ("custo_fobizacao_container_brl_ton", 20), ("custo_vhp_para_cristal", 5)]) "equivalente_vhp_cents_lb_fob" =
      some ((((((((10 : ℚ) * 22.04622 + 1) * 2 - 20 - 40) / SACAS_POR_TON - 5) * SACAS_POR_TON) + 40 + 3 * 2) / FATOR_CONVERSAO_CENTS_LB_PARA_TON) / 2) := rfl
  have hq5a : numLookup (calc_acucar_cristal_exportacao
      [("acucar_ny_cents_lb", 10), ("premio_fisico_exportacao", 1),
         ("premio_fisico_exportacao_malha30", 1)]
      [("cambio_brl_usd", 1), ("custo_terminal_usd_ton", 3), ("frete_brl_ton", 40),
         ("custo_fobizacao_container_brl_ton", 20), ("custo_vhp_para_cristal", 5)]) "equivalente_cristal_cents_lb_pvu" =
      some ((((((10 : ℚ) * 22.04622 + 1) * 1 - 20 - 40) / SACAS_POR_TON * SACAS_POR_TON) / FATOR_CONVERSAO_CENTS_LB_PARA_TON) / 1) := rfl
  have hq5b : numLookup (calc_acucar_cristal_exportacao
      [("acucar_ny_cents_lb", 10), ("premio_fisico_exportacao", 1),
         ("premio_fisico_exportacao_malha30", 1)]
      [("cambio_brl_usd", 2), ("custo_terminal_usd_ton", 3), ("frete_brl_ton", 40),
         ("custo_fobizacao_container_brl_ton", 20), ("custo_vhp_para_cristal", 5)]) "equivalente_cristal_cents_lb_pvu" =
      some ((((((10 : ℚ) * 22.04622 + 1) * 2 - 20 - 40) / SACAS_POR_TON * SACAS_POR_TON) / FATOR_CONVERSAO_CENTS_LB_PARA_TON) / 2) := rfl
  have hq6a : numLookup (calc_acucar_cristal_exportacao_malha30
      [("acucar_ny_cents_lb", 10), ("premio_fisico_exportacao", 1),
         ("premio_fisico_exportacao_malha30", 1)]
      [("cambio_brl_usd", 1), ("custo_terminal_usd_ton", 3), ("frete_brl_ton", 40),
         ("custo_fobizacao_container_brl_ton", 20), ("custo_vhp_para_cristal", 5)]) "equivalente_cristal_reais_saca_pvu" =
      some ((((10 : ℚ) * 22.04622 + 1) * 1 - 20 - 40) / SACAS_POR_TON) := rfl
  have hq6b : numLookup (calc_acucar_cristal_exportacao_malha30
      [("acucar_ny_cents_lb", 10), ("premio_fisico_exportacao", 1),
         ("premio_fisico_exportacao_malha30", 1)]
      [("cambio_brl_usd", 2), ("custo_terminal_usd_ton", 3), ("frete_brl_ton", 40),
         ("custo_fobizacao_container_brl_ton", 20), ("custo_vhp_para_cristal", 5)]) "equivalente_cristal_reais_saca_pvu" =
      some ((((10 : ℚ) * 22.04622 + 1) * 2 - 20 - 40) / SACAS_POR_TON) := rfl
  have hq7a : numLookup (calc_acucar_cristal_exportacao_malha30
      [("acucar_ny_cents_lb", 10), ("premio_fisico_exportacao", 1),
         ("premio_fisico_exportacao_malha30", 1)]
      [("cambio_brl_usd", 1), ("custo_terminal_usd_ton", 3), ("frete_brl_ton", 40),
         ("custo_fobizacao_container_brl_ton", 20), ("custo_vhp_para_cristal", 5)]) "equivalente_vhp_reais_saca_pvu" =
      some ((((10 : ℚ) * 22.04622 + 1) * 1 - 20 - 40) / SACAS_POR_TON - 5) := rfl
  have hq7b : numLookup (calc_acucar_cristal_exportacao_malha30
      [("acucar_ny_cents_lb", 10), ("premio_fisico_exportacao", 1),
         ("premio_fisico_exportacao_malha30", 1)]
      [("cambio_brl_usd", 2), ("custo_terminal_usd_ton", 3), ("frete_brl_ton", 40),
         ("custo_fobizacao_container_brl_ton", 20), ("custo_vhp_para_cristal", 5)]) "equivalente_vhp_reais_saca_pvu" =
      some ((((10 : ℚ) * 22.04622 + 1) * 2 - 20 - 40) / SACAS_POR_TON - 5) := rfl
  have hq8a : numLookup (calc_acucar_cristal_exportacao_malha30
      [("acucar_ny_cents_lb", 10), ("premio_fisico_exportacao", 1),
         ("premio_fisico_exportacao_malha30", 1)]
      [("cambio_brl_usd", 1), ("custo_terminal_usd_ton", 3), ("frete_brl_ton", 40),
         ("custo_fobizacao_container_brl_ton", 20), ("custo_vhp_para_cristal", 5)]) "equivalente_vhp_cents_lb_pvu" =
      some (((((((10 : ℚ) * 22.04622 + 1) * 1 - 20 - 40) / SACAS_POR_TON - 5) * SACAS_POR_TON) / FATOR_CONVERSAO_CENTS_LB_PARA_TON) / 1) := rfl
  have hq8b : numLookup (calc_acucar_cristal_exportacao_malha30
      [("acucar_ny_cents_lb", 10), ("premio_fisico_exportacao", 1),
         ("premio_fisico_exportacao_malha30", 1)]
      [("cambio_brl_usd", 2), ("custo_terminal_usd_ton", 3), ("frete_brl_ton", 40),
         ("custo_fobizacao_container_brl_ton", 20), ("custo_vhp_para_cristal", 5)]) "equivalente_vhp_cents_lb_pvu" =
      some (((((((10 : ℚ) * 22.04622 + 1) * 2 - 20 - 40) / SACAS_POR_TON - 5) * SACAS_POR_TON) / FATOR_CONVERSAO_CENTS_LB_PARA_TON) / 2) := rfl
  have hq9a : numLookup (calc_acucar_cristal_exportacao_malha30
      [("acucar_ny_cents_lb", 10), ("premio_fisico_exportacao", 1),
         ("premio_fisico_exportacao_malha30", 1)]
      [("cambio_brl_usd", 1), ("custo_terminal_usd_ton", 3), ("frete_brl_ton", 40),
         ("custo_fobizacao_container_brl_ton", 20), ("custo_vhp_para_cristal", 5)]) "equivalente_vhp_cents_lb_fob" =
      some ((((((((10 : ℚ) * 22.04622 + 1) * 1 - 20 - 40) / SACAS_POR_TON - 5) * SACAS_POR_TON) + 40 + 3 * 1) / FATOR_CONVERSAO_CENTS_LB_PARA_TON) / 1) := rfl
  have hq9b : numLookup (calc_acucar_cristal_exportacao_malha30
      [("acucar_ny_cents_lb", 10), ("premio_fisico_exportacao", 1),
         ("premio_fisico_exportacao_malha30", 1)]
      [("cambio_brl_usd", 2), ("custo_terminal_usd_ton", 3), ("frete_brl_ton", 40),
         ("custo_fobizacao_container_brl_ton", 20), ("custo_vhp_para_cristal", 5)]) "equivalente_vhp_cents_lb_fob" =
      some ((((((((10 : ℚ) * 22.04622 + 1) * 2 - 20 - 40) / SACAS_POR_TON - 5) * SACAS_POR_TON) + 40 + 3 * 2) / FATOR_CONVERSAO_CENTS_LB_PARA_TON) / 2) := rfl
  have hq10a : numLookup (calc_acucar_cristal_exportacao_malha30
      [("acucar_ny_cents_lb", 10), ("premio_fisico_exportacao", 1),
         ("premio_fisico_exportacao_malha30", 1)]
      [("cambio_brl_usd", 1), ("custo_terminal_usd_ton", 3), ("frete_brl_ton", 40),
         ("custo_fobizacao_container_brl_ton", 20), ("custo_vhp_para_cristal", 5)]) "equivalente_cristal_cents_lb_pvu" =
      some ((((((10 : ℚ) * 22.04622 + 1) * 1 - 20 - 40) / SACAS_POR_TON * SACAS_POR_TON) / FATOR_CONVERSAO_CENTS_LB_PARA_TON) / 1) := rfl
  have hq10b : numLookup (calc_acucar_cristal_exportacao_malha30
      [("acucar_ny_cents_lb", 10), ("premio_fisico_exportacao", 1),
         ("premio_fisico_exportacao_malha30", 1)]
      [("cambio_brl_usd", 2), ("custo_terminal_usd_ton", 3), ("frete_brl_ton", 40),
         ("custo_fobizacao_container_brl_ton", 20), ("custo_vhp_para_cristal", 5)]) "equivalente_cristal_cents_lb_pvu" =
      some ((((((10 : ℚ) * 22.04622 + 1) * 2 - 20 - 40) / SACAS_POR_TON * SACAS_POR_TON) / FATOR_CONVERSAO_CENTS_LB_PARA_TON) / 2) := rfl
  refine ⟨key, ?_, ?_, ?_, ?_, ?_, ?_, ?_, ?_, ?_, ?_, ?_⟩
  · intro i1 g1 i2 g2 h1 h2 ha hp hpm
    rw [(key i1 g1 h1).1, (key i1 g1 h1).2, (key i2 g2 h2).1, (key i2 g2 h2).2,
      ha, hp, hpm]
    exact ⟨rfl, rfl⟩
  · rw [hq1a, hq1b]
    simp only [ne_eq, Option.some.injEq]
    norm_num [SACAS_POR_TON, FATOR_CONVERSAO_CENTS_LB_PARA_TON]
  · rw [hq2a, hq2b]
    simp only [ne_eq, Option.some.injEq]
    norm_num [SACAS_POR_TON, FATOR_CONVERSAO_CENTS_LB_PARA_TON]
  · rw [hq3a, hq3b]
    simp only [ne_eq, Option.some.injEq]
    norm_num [SACAS_POR_TON, FATOR_CONVERSAO_CENTS_LB_PARA_TON]
  · rw [hq4a, hq4b]
    simp only [ne_eq, Option.some.injEq]
    norm_num [SACAS_POR_TON, FATOR_CONVERSAO_CENTS_LB_PARA_TON]
  · rw [hq5a, hq5b]
    simp only [ne_eq, Option.some.injEq]
    norm_num [SACAS_POR_TON, FATOR_CONVERSAO_CENTS_LB_PARA_TON]
  · rw [hq6a, hq6b]
    simp only [ne_eq, Option.some.injEq]
    norm_num [SACAS_POR_TON, FATOR_CONVERSAO_CENTS_LB_PARA_TON]
  · rw [hq7a, hq7b]
    simp only [ne_eq, Option.some.injEq]
    norm_num [SACAS_POR_TON, FATOR_CONVERSAO_CENTS_LB_PARA_TON]
  · rw [hq8a, hq8b]
    simp only [ne_eq, Option.some.injEq]
    norm_num [SACAS_POR_TON, FATOR_CONVERSAO_CENTS_LB_PARA_TON]
  · rw [hq9a, hq9b]
    simp only [ne_eq, Option.some.injEq]
    norm_num [SACAS_POR_TON, FATOR_CONVERSAO_CENTS_LB_PARA_TON]
  · rw [hq10a, hq10b]
    simp only [ne_eq, Option.some.injEq]
    norm_num [SACAS_POR_TON, FATOR_CONVERSAO_CENTS_LB_PARA_TON]

/-- Witness for C10 at a concrete NY price and exchange rate. -/
theorem export_cristal_fob_only_ny_and_premium_witness :
    0 < pget [("cambio_brl_usd", 3)] "cambio_brl_usd" 1 ∧
      numLookup (calc_acucar_cristal_exportacao [("acucar_ny_cents_lb", 12)]
          [("cambio_brl_usd", 3)]) "equivalente_cristal_cents_lb_fob" =
        some (((pget [("acucar_ny_cents_lb", 12)] "acucar_ny_cents_lb" 0 * 22.04622) +
          pget [("acucar_ny_cents_lb", 12)] "premio_fisico_exportacao" 0) / 22.0462) :=
  ⟨by decide,
    (export_cristal_fob_only_ny_and_premium.1 [("acucar_ny_cents_lb", 12)]
      [("cambio_brl_usd", 3)] (by decide)).1⟩
